import Mathlib

/-
  Shallow embedding of src/separate-point-sets.js.

  Conventions used throughout this development:
  * JavaScript numbers are modelled as rationals; every arithmetic
    expression of the source is exact rational arithmetic here.
  * Math.sqrt has no exact rational counterpart, so every function that
    reaches a Math.sqrt call is parameterized by an explicit function
    argument named sqrt; the theorems below hold for every choice of it.
  * JavaScript null is modelled as Option.none; a field access on null
    (a TypeError in the source language) is modelled as Except.error ().
  * Point records with .x and .y are the structure Point below; hull
    edges are pairs of points, exactly as the two element arrays of the
    source.
-/

namespace SeparatePointSets

/-- Model of the caller supplied point records: numeric fields x and y. -/
structure Point where
  x : ℚ
  y : ℚ
deriving DecidableEq, Repr

/-- Model of a hull edge: a two element array [p, q] of the source. -/
abbrev Edge := Point × Point

/-!  Embedding of getConvexHull (source lines 39 to 111).  -/

/-- Embeds the loop body of findMostDistantPointFromBaseLine (source lines
48 to 59): walks the point list carrying maxD and maxPt, returning the
final maxPt together with the pushed newPoints list (points of strictly
positive signed distance, in input order). -/
def fmdLoop (Vx Vy x0 y0 : ℚ) : List Point → ℚ → Option Point → Option Point × List Point
  | [], _, maxPt => (maxPt, [])
  | pt :: rest, maxD, maxPt =>
    let distance := Vx * (pt.x - x0) + Vy * (pt.y - y0)
    if 0 < distance then
      if maxD < distance then
        let r := fmdLoop Vx Vy x0 y0 rest distance (some pt)
        (r.1, pt :: r.2)
      else
        let r := fmdLoop Vx Vy x0 y0 rest maxD maxPt
        (r.1, pt :: r.2)
    else
      fmdLoop Vx Vy x0 y0 rest maxD maxPt

/-- Embeds findMostDistantPointFromBaseLine (source lines 41 to 65):
Vy = baseLine[1].x - baseLine[0].x, Vx = baseLine[0].y - baseLine[1].y,
then the scan of fmdLoop with maxD = 0 and maxPt = null. -/
def findMostDistantPointFromBaseLine (baseLine : Edge) (points : List Point) :
    Option Point × List Point :=
  fmdLoop (baseLine.1.y - baseLine.2.y) (baseLine.2.x - baseLine.1.x)
    baseLine.1.x baseLine.1.y points 0 none

/-- Pushed points of the scan are exactly the points of strictly positive
signed distance, in order (the source pushes them one by one). -/
theorem fmdLoop_snd (Vx Vy x0 y0 : ℚ) :
    ∀ (pts : List Point) (maxD : ℚ) (maxPt : Option Point),
      (fmdLoop Vx Vy x0 y0 pts maxD maxPt).2 =
        pts.filter (fun pt => decide (0 < Vx * (pt.x - x0) + Vy * (pt.y - y0))) := by
  intro pts
  induction pts with
  | nil => intro maxD maxPt; rfl
  | cons pt rest ih =>
    intro maxD maxPt
    by_cases h : 0 < Vx * (pt.x - x0) + Vy * (pt.y - y0)
    · by_cases h2 : maxD < Vx * (pt.x - x0) + Vy * (pt.y - y0)
      · simp [fmdLoop, h, h2, List.filter, ih]
      · simp [fmdLoop, h, h2, List.filter, ih]
    · simp [fmdLoop, h, List.filter, ih]

/-- A maxPt produced by the scan is the initial one or a scanned point of
strictly positive signed distance. -/
theorem fmdLoop_fst (Vx Vy x0 y0 : ℚ) :
    ∀ (pts : List Point) (maxD : ℚ) (maxPt : Option Point) (M : Point),
      (fmdLoop Vx Vy x0 y0 pts maxD maxPt).1 = some M →
        maxPt = some M ∨ (M ∈ pts ∧ 0 < Vx * (M.x - x0) + Vy * (M.y - y0)) := by
  intro pts
  induction pts with
  | nil => intro maxD maxPt M h; exact Or.inl h
  | cons pt rest ih =>
    intro maxD maxPt M h
    by_cases hd : 0 < Vx * (pt.x - x0) + Vy * (pt.y - y0)
    · by_cases h2 : maxD < Vx * (pt.x - x0) + Vy * (pt.y - y0)
      · simp only [fmdLoop, if_pos hd, if_pos h2] at h
        rcases ih _ _ M h with hcase | hcase
        · right
          have hM : M = pt := (Option.some.inj hcase).symm
          subst hM
          exact ⟨List.mem_cons_self _ _, hd⟩
        · exact Or.inr ⟨List.mem_cons_of_mem _ hcase.1, hcase.2⟩
      · simp only [fmdLoop, if_pos hd, if_neg h2] at h
        rcases ih _ _ M h with hcase | hcase
        · exact Or.inl hcase
        · exact Or.inr ⟨List.mem_cons_of_mem _ hcase.1, hcase.2⟩
    · simp only [fmdLoop, if_neg hd] at h
      rcases ih _ _ M h with hcase | hcase
      · exact Or.inl hcase
      · exact Or.inr ⟨List.mem_cons_of_mem _ hcase.1, hcase.2⟩

/-- Filtering a list that contains an element failing the predicate
strictly shortens it. -/
theorem filter_length_lt {α : Type} {p : α → Bool} {l : List α} {a : α}
    (ha : a ∈ l) (hpa : p a = false) : (l.filter p).length < l.length := by
  induction l with
  | nil => cases ha
  | cons b rest ih =>
    rcases List.mem_cons.mp ha with hb | hb
    · subst hb
      rw [List.filter_cons, hpa]
      exact Nat.lt_succ_of_le (List.length_filter_le _ _)
    · rw [List.filter_cons]
      by_cases hpb : p b
      · simp only [hpb, if_pos, List.length_cons]
        exact Nat.succ_lt_succ (ih hb)
      · simp only [Bool.not_eq_true] at hpb
        simp only [hpb, Bool.false_eq_true, if_neg, not_false_iff]
        exact Nat.lt_of_lt_of_le (ih hb) (Nat.le_succ _)

/-- Measure fact for the hull recursion: when the scan of a baseline over
some points yields a maxPoint M, then for any new baseline (A, B) whose
signed distance formula vanishes at M, the scan of (A, B) over the pushed
points of the first scan pushes strictly fewer points. -/
theorem fmd_measure_lt (baseLine : Edge) (points : List Point) (M A B : Point)
    (h : (findMostDistantPointFromBaseLine baseLine points).1 = some M)
    (hz : (A.y - B.y) * (M.x - A.x) + (B.x - A.x) * (M.y - A.y) = 0) :
    ((findMostDistantPointFromBaseLine (A, B)
        ((findMostDistantPointFromBaseLine baseLine points).2)).2).length
      < ((findMostDistantPointFromBaseLine baseLine points).2).length := by
  have hmem : M ∈ (findMostDistantPointFromBaseLine baseLine points).2 := by
    rcases fmdLoop_fst _ _ _ _ points 0 none M h with hcase | hcase
    · cases hcase
    · rw [findMostDistantPointFromBaseLine, fmdLoop_snd]
      exact List.mem_filter.mpr ⟨hcase.1, by simpa using hcase.2⟩
  rw [findMostDistantPointFromBaseLine, fmdLoop_snd]
  exact filter_length_lt hmem (by simp [hz])

/-- Embeds buildConvexHull (source lines 67 to 81): if the scan finds a
point strictly outside the baseline, recurse on the two sub baselines over
the pushed points and append the results; otherwise the baseline itself is
a terminal hull edge.  The source binds the scan result once as t; the
calls are spelled out here, which is the same value since the scan is
pure. -/
def buildConvexHull (baseLine : Edge) (points : List Point) : List Edge :=
  match h : (findMostDistantPointFromBaseLine baseLine points).1 with
  | some maxPoint =>
    buildConvexHull (baseLine.1, maxPoint)
        ((findMostDistantPointFromBaseLine baseLine points).2)
      ++ buildConvexHull (maxPoint, baseLine.2)
        ((findMostDistantPointFromBaseLine baseLine points).2)
  | none => [baseLine]
termination_by ((findMostDistantPointFromBaseLine baseLine points).2).length
decreasing_by
  · exact fmd_measure_lt baseLine points maxPoint baseLine.1 maxPoint h (by ring)
  · exact fmd_measure_lt baseLine points maxPoint maxPoint baseLine.2 h (by ring)

/-- State of the initial baseline loop of getConvexHull (source lines 88
to 91): the four variables start out undefined, modelled as none. -/
structure BaselineScan where
  maxX : Option ℚ
  maxPt : Option Point
  minX : Option ℚ
  minPt : Option Point
deriving DecidableEq, Repr

/-- JavaScript logical negation on a possibly undefined number: !v is true
when v is undefined or when v is 0. -/
def jsFalsy : Option ℚ → Bool
  | none => true
  | some q => decide (q = 0)

/-- JavaScript comparison u > v where v may be undefined: any comparison
with undefined is false. -/
def jsGt (u : ℚ) : Option ℚ → Bool
  | none => false
  | some v => decide (v < u)

/-- JavaScript comparison u < v where v may be undefined. -/
def jsLt (u : ℚ) : Option ℚ → Bool
  | none => false
  | some v => decide (u < v)

/-- Embeds the initial baseline loop of getConvexHull (source lines 93 to
104): for each point, if pt.x > maxX or !maxX then update maxPt and maxX,
and likewise for the minimum.  Note that !maxX is also true when the
running value maxX is exactly 0, faithfully modelled by jsFalsy. -/
def baselineScan (points : List Point) : BaselineScan :=
  points.foldl
    (fun s pt =>
      let s :=
        if jsGt pt.x s.maxX || jsFalsy s.maxX then
          { s with maxPt := some pt, maxX := some pt.x }
        else s
      if jsLt pt.x s.minX || jsFalsy s.minX then
        { s with minPt := some pt, minX := some pt.x }
      else s)
    ⟨none, none, none, none⟩

/-- Embeds getConvexHull (source lines 39 to 111).  The source initializes
ch = [], and when at least 3 points are present calls
ch.concat(buildConvexHull(...), buildConvexHull(...)); Array.prototype.concat
returns a fresh array and the call result is never assigned, so the
discarded value is bound here to an unused name and ch itself, the empty
array, is returned.  When the length guard passes the scan has seen at
least one point, so minPt and maxPt are set; the fallback match arm is
unreachable. -/
def getConvexHull (points : List Point) : List Edge :=
  let s := baselineScan points
  let ptsArray := points
  let ch : List Edge := []
  if 3 ≤ ptsArray.length then
    let _discarded :=
      match s.minPt, s.maxPt with
      | some minPt, some maxPt =>
        ch ++ buildConvexHull (minPt, maxPt) ptsArray
           ++ buildConvexHull (maxPt, minPt) ptsArray
      | _, _ => ch
    ch
  else
    ch

/-- Both branches of getConvexHull return the initial empty array. -/
theorem getConvexHull_eq_nil (points : List Point) : getConvexHull points = [] := by
  unfold getConvexHull
  dsimp only
  split <;> rfl

/-!  Embedding of the geometric primitives nested in displacePoints
(source lines 118 to 292).  -/

/-- Result record of checkLineIntersection (source lines 131 to 136): the
coordinates stay null when the denominator is zero. -/
structure IntersectionResult where
  x : Option ℚ
  y : Option ℚ
  onLine1 : Bool
  onLine2 : Bool
deriving DecidableEq, Repr

/-- Embeds checkLineIntersection (source lines 125 to 166).  The source
shadows a and b with the two quotients; the same shadowing is used here. -/
def checkLineIntersection (line1Start line1End line2Start line2End : Point) :
    IntersectionResult :=
  let denominator :=
    ((line2End.y - line2Start.y) * (line1End.x - line1Start.x)) -
      ((line2End.x - line2Start.x) * (line1End.y - line1Start.y))
  if denominator = 0 then
    { x := none, y := none, onLine1 := false, onLine2 := false }
  else
    let a := line1Start.y - line2Start.y
    let b := line1Start.x - line2Start.x
    let numerator1 := ((line2End.x - line2Start.x) * a) - ((line2End.y - line2Start.y) * b)
    let numerator2 := ((line1End.x - line1Start.x) * a) - ((line1End.y - line1Start.y) * b)
    let a := 1 * numerator1 / denominator
    let b := 1 * numerator2 / denominator
    { x := some (line1Start.x + (a * (line1End.x - line1Start.x))),
      y := some (line1Start.y + (a * (line1End.y - line1Start.y))),
      onLine1 := decide (0 < a ∧ a < 1),
      onLine2 := decide (0 < b ∧ b < 1) }

/-- Embeds sqr (source lines 168 to 170). -/
def sqr (x : ℚ) : ℚ := x * x

/-- Embeds dist2 (source lines 171 to 173). -/
def dist2 (pt1 pt2 : Point) : ℚ := sqr (pt1.x - pt2.x) + sqr (pt1.y - pt2.y)

/-- Embeds distToSegmentSquared (source lines 174 to 187). -/
def distToSegmentSquared (pt v1 v2 : Point) : ℚ :=
  let l2 := dist2 v1 v2
  if l2 = 0 then dist2 pt v1
  else
    let t := ((pt.x - v1.x) * (v2.x - v1.x) + (pt.y - v1.y) * (v2.y - v1.y)) / l2
    if t < 0 then dist2 pt v1
    else if 1 < t then dist2 pt v2
    else dist2 pt ⟨v1.x + t * (v2.x - v1.x), v1.y + t * (v2.y - v1.y)⟩

/-- Embeds distToSegment (source lines 188 to 190); Math.sqrt is the
explicit sqrt parameter. -/
def distToSegment (sqrt : ℚ → ℚ) (pt v1 v2 : Point) : ℚ :=
  sqrt (distToSegmentSquared pt v1 v2)

/-- Embeds findMostDistantPointFromLine (source lines 192 to 211): walks
every edge of the hull, visiting the edge endpoints in index order, and
keeps the point of maximal strictly positive signed distance; returns null
when no endpoint has strictly positive distance. -/
def findMostDistantPointFromLine (linePt1 linePt2 : Point) (convexHull : List Edge) :
    Option Point :=
  let Vy := linePt2.x - linePt1.x
  let Vx := linePt1.y - linePt2.y
  let step := fun (state : ℚ × Option Point) (pt : Point) =>
    let distance := Vx * (pt.x - linePt1.x) + Vy * (pt.y - linePt1.y)
    if 0 < distance ∧ state.1 < distance then (distance, some pt) else state
  (convexHull.foldl (fun state e => step (step state e.1) e.2) (0, none)).2

/-- Embeds minDistanceVector (source lines 220 to 251).  The source keeps
the index of the best edge; the edge itself is carried here, which is the
same data since the index is only used to read the edge back.  The source
computes intersectionData.x - pt.x even though intersectionData.x can be
null (JavaScript coerces null to 0 in subtraction), modelled by getD 0.
The none result corresponds to the source logging and returning null on an
empty hull. -/
def minDistanceVector (sqrt : ℚ → ℚ) (convexHull : List Edge) (pt : Point) :
    Option (Point × Edge) :=
  let best := convexHull.foldl
    (fun (state : Option (ℚ × Edge)) e =>
      let tmpDist := distToSegment sqrt pt e.1 e.2
      match state with
      | none => some (tmpDist, e)
      | some (minDist, _) => if tmpDist < minDist then some (tmpDist, e) else state)
    none
  match best with
  | some (_, e) =>
    let dx := e.1.x - e.2.x
    let dy := e.1.y - e.2.y
    let pp2 : Point := ⟨pt.x + dy, pt.y - dx⟩
    let intersectionData := checkLineIntersection pt pp2 e.1 e.2
    some (⟨intersectionData.x.getD 0 - pt.x, intersectionData.y.getD 0 - pt.y⟩, e)
  | none => none

/-- Embeds sameSign (source lines 262 to 264). -/
def sameSign (a b : ℚ) : Bool :=
  decide ((a < 0 ∧ b < 0) ∨ (0 ≤ a ∧ 0 ≤ b))

/-- Embeds sameDirection (source lines 265 to 267). -/
def sameDirection (pt11 pt12 pt21 pt22 : Point) : Bool :=
  sameSign (pt12.x - pt11.x) (pt22.x - pt21.x) &&
    sameSign (pt12.y - pt11.y) (pt22.y - pt21.y)

/-- Names the edge acceptance test of minDistanceVectorInDirection (source
line 273): the segment intersection lies strictly inside the edge and in
the direction of (pt, v).  When onLine2 holds the denominator was nonzero,
so the coordinate fields are set and getD 0 only discharges the Option. -/
def rayCrossesEdge (pt v : Point) (e : Edge) : Bool :=
  let intersectionData := checkLineIntersection pt v e.1 e.2
  intersectionData.onLine2 &&
    sameDirection pt v pt ⟨intersectionData.x.getD 0, intersectionData.y.getD 0⟩

/-- Embeds the edge loop of minDistanceVectorInDirection (source lines 269
to 291).  The full hull is carried separately because the inner call to
findMostDistantPointFromLine ranges over the whole hull.  Except.error ()
models the TypeError the source would raise at line 282 reading
mostDistantPoint.x when findMostDistantPointFromLine returned null; ok
none models the source logging and returning null after the loop. -/
def mdvidLoop (fullHull : List Edge) (pt v : Point) :
    List Edge → Except Unit (Option (Point × Edge))
  | [] => Except.ok none
  | e :: rest =>
    if rayCrossesEdge pt v e then
      match findMostDistantPointFromLine pt
          ⟨pt.x + (v.y - pt.y), pt.y - (v.x - pt.x)⟩ fullHull with
      | some mostDistantPoint =>
        Except.ok (some (⟨-pt.x + mostDistantPoint.x, -pt.y + mostDistantPoint.y⟩, e))
      | none => Except.error ()
    else mdvidLoop fullHull pt v rest

/-- Embeds minDistanceVectorInDirection (source lines 268 to 292). -/
def minDistanceVectorInDirection (convexHull : List Edge) (pt v : Point) :
    Except Unit (Option (Point × Edge)) :=
  mdvidLoop convexHull pt v convexHull

/-!  Embedding of the main body of displacePoints (source lines 294 to
375).  -/

/-- Embeds the default for a falsey pt1 (source lines 303 to 314): the
average of the first endpoint of every fixed hull edge. -/
def hullCentroid (chFixed : List Edge) : Point :=
  let sum := chFixed.foldl (fun (s : Point) e => ⟨s.x + e.1.x, s.y + e.1.y⟩) ⟨0, 0⟩
  ⟨sum.x / (chFixed.length : ℚ), sum.y / (chFixed.length : ℚ)⟩

/-- Embeds the body of displacePoints after the degenerate hull guard
(source lines 302 to 375), taking the two computed hulls as arguments.
Except.error () models the TypeError the source would raise at line 324
reading .vector on a null displacementDataFromFixed, or at line 352
reading .x on a null farthestPoint.  The source reassigns a falsey padding
to 0.0, an identity on rationals kept here for faithfulness.  Division by
the sqrt value len is rational division, which yields 0 at 0 where the
source would produce NaN; no theorem below depends on that branch. -/
def displacePointsCore (sqrt : ℚ → ℚ) (chFixed chDisplace : List Edge)
    (ptsToDisplace : List Point) (padding : ℚ) (pt1 pt2 : Option Point) :
    Except Unit (List Point) :=
  let pt1 : Point :=
    match pt1 with
    | some p => p
    | none => hullCentroid chFixed
  let displacementDataFromFixed : Except Unit (Option (Point × Edge)) :=
    match pt2 with
    | none => Except.ok (minDistanceVector sqrt chFixed pt1)
    | some p2 => minDistanceVectorInDirection chFixed pt1 p2
  match displacementDataFromFixed with
  | Except.error e => Except.error e
  | Except.ok none => Except.error ()
  | Except.ok (some displacementData) =>
    let displacementDirection := displacementData.1
    let separatingAxisVector : Point :=
      if displacementDirection.x ≠ 0 ∨ displacementDirection.y ≠ 0 then
        ⟨-1 * displacementDirection.y, -(-1 * displacementDirection.x)⟩
      else
        ⟨displacementData.2.1.x - displacementData.2.2.x,
         displacementData.2.1.y - displacementData.2.2.y⟩
    let separatingPoint : Point :=
      ⟨pt1.x + displacementData.1.x, pt1.y + displacementData.1.y⟩
    match findMostDistantPointFromLine separatingPoint
        ⟨separatingPoint.x + separatingAxisVector.x,
         separatingPoint.y + separatingAxisVector.y⟩ chDisplace with
    | none => Except.error ()
    | some farthestPoint =>
      let vDisplace : Point :=
        ⟨separatingPoint.x - farthestPoint.x, separatingPoint.y - farthestPoint.y⟩
      let padding : ℚ := if padding = 0 then 0 else padding
      let len := sqrt (separatingAxisVector.x * separatingAxisVector.x +
        separatingAxisVector.y * separatingAxisVector.y)
      let vPadding : Point :=
        ⟨1 * separatingAxisVector.y * (padding / len),
         -1 * separatingAxisVector.x * (padding / len)⟩
      let displace_dx := vDisplace.x + vPadding.x
      let displace_dy := vDisplace.y + vPadding.y
      Except.ok (ptsToDisplace.map fun p => ⟨p.x + displace_dx, p.y + displace_dy⟩)

/-- Embeds displacePoints (source lines 118 to 375).  The mutable state is
made explicit: the normal return value is the pair of the fixed list and
the to displace list after the call; the early return at line 301 leaves
both unchanged.  Except.error () models an uncaught TypeError. -/
def displacePoints (sqrt : ℚ → ℚ) (ptsFixed ptsToDisplace : List Point)
    (padding : ℚ) (pt1 pt2 : Option Point) :
    Except Unit (List Point × List Point) :=
  let chFixed := getConvexHull ptsFixed
  let chDisplace := getConvexHull ptsToDisplace
  if chFixed.length < 3 ∨ chDisplace.length < 3 then
    Except.ok (ptsFixed, ptsToDisplace)
  else
    (displacePointsCore sqrt chFixed chDisplace ptsToDisplace padding pt1 pt2).map
      (fun moved => (ptsFixed, moved))

/-- Every call of displacePoints takes the early degenerate hull exit,
because getConvexHull always returns the empty array, and so returns both
lists unchanged without an error. -/
theorem displacePoints_ok (sqrt : ℚ → ℚ) (ptsFixed ptsToDisplace : List Point)
    (padding : ℚ) (pt1 pt2 : Option Point) :
    displacePoints sqrt ptsFixed ptsToDisplace padding pt1 pt2 =
      Except.ok (ptsFixed, ptsToDisplace) := by
  unfold displacePoints
  simp [getConvexHull_eq_nil]

/-!  Concrete inputs used by the claim theorems.  -/

/-- Fixed square of the concrete scenario of the specification. -/
def fixedSquare : List Point := [⟨0, 0⟩, ⟨0, 2⟩, ⟨2, 2⟩, ⟨2, 0⟩]

/-- Overlapping square of the concrete scenario of the specification. -/
def overlapSquare : List Point := [⟨1, 1⟩, ⟨1, 2⟩, ⟨2, 1⟩, ⟨2, 2⟩]

/-- Edges of a non degenerate triangle hull, used to exercise the helpers
directly. -/
def triHull : List Edge := [(⟨0, 0⟩, ⟨4, 0⟩), (⟨4, 0⟩, ⟨0, 4⟩), (⟨0, 4⟩, ⟨0, 0⟩)]

/-- Input whose maximum x coordinate is 0, exposing the falsey test on the
running maximum in the baseline scan. -/
def zeroXInput : List Point := [⟨0, 0⟩, ⟨-1, 5⟩, ⟨-2, 3⟩]

/-!  Helper lemmas shared by the claim theorems.  -/

/-- Scanning edges none of which passes the crossing test reaches the end
of the loop and returns the null result. -/
theorem mdvidLoop_ok_none (fullHull : List Edge) (pt v : Point) :
    ∀ rest : List Edge, (∀ e ∈ rest, rayCrossesEdge pt v e = false) →
      mdvidLoop fullHull pt v rest = Except.ok none := by
  intro rest
  induction rest with
  | nil => intro _; rfl
  | cons e tail ih =>
    intro h
    have he : rayCrossesEdge pt v e = false := h e (List.mem_cons_self _ _)
    simp only [mdvidLoop, he, Bool.false_eq_true, if_neg, not_false_iff]
    exact ih (fun e' he' => h e' (List.mem_cons_of_mem _ he'))

/-- Translating every point by the zero vector is the identity. -/
theorem map_translate_zero (pts : List Point) :
    (pts.map fun p => (⟨p.x + 0, p.y + 0⟩ : Point)) = pts := by
  induction pts with
  | nil => rfl
  | cons p rest ih => simp [ih]

/-!  Claim theorems.  -/

/-- Claim C1 (status code_bug): at the concrete valid scenario, two non
degenerate overlapping squares with padding 1, the call returns normally
with the to displace set unchanged, and the two sets still share the point
(2, 2), so the two hulls intersect and their minimum distance is 0, not at
least the padding.  The computed hulls are empty because getConvexHull
discards the result of Array.prototype.concat, so the separation logic
never runs. -/
theorem claim1_concrete_call_leaves_sets_overlapping :
    displacePoints (fun q => q) fixedSquare overlapSquare 1 none none =
        Except.ok (fixedSquare, overlapSquare) ∧
      (⟨2, 2⟩ : Point) ∈ fixedSquare ∧ (⟨2, 2⟩ : Point) ∈ overlapSquare :=
  ⟨displacePoints_ok _ _ _ _ _ _, by decide, by decide⟩

/-- Claim C2 (status code_bug): the hull of 0, 1 or 2 points is the empty
edge sequence as the claim states, but the hull of 3 non collinear points
is also the empty edge sequence instead of the 3 edges of a triangle,
because the concat result is discarded. -/
theorem claim2_hull_of_triangle_is_empty :
    getConvexHull [] = [] ∧
      getConvexHull [⟨1, 1⟩] = [] ∧
      getConvexHull [⟨0, 0⟩, ⟨3, 3⟩] = [] ∧
      getConvexHull [⟨0, 0⟩, ⟨4, 0⟩, ⟨0, 4⟩] = [] :=
  ⟨getConvexHull_eq_nil _, getConvexHull_eq_nil _, getConvexHull_eq_nil _,
    getConvexHull_eq_nil _⟩

/-- Claim C3 (status confirmed): getConvexHull returns the empty array for
every input, because the edge list built by the recursion is passed to
Array.prototype.concat whose result is never assigned, so the initial
empty array is returned. -/
theorem claim3_getConvexHull_always_empty :
    ∀ points : List Point, getConvexHull points = [] :=
  getConvexHull_eq_nil

/-- Claim C4 (status confirmed): whatever happens to the to displace set,
displacePoints hands the fixed set back unchanged; the only mutation the
operation can perform is on members of the to displace set. -/
theorem claim4_fixed_set_never_modified
    (sqrt : ℚ → ℚ) (ptsFixed ptsToDisplace : List Point) (padding : ℚ)
    (pt1 pt2 : Option Point) :
    ∃ moved : List Point,
      displacePoints sqrt ptsFixed ptsToDisplace padding pt1 pt2 =
        Except.ok (ptsFixed, moved) :=
  ⟨ptsToDisplace, displacePoints_ok _ _ _ _ _ _⟩

/-- Claim C5 (status confirmed): every call of displacePoints applies one
and the same translation (dx, dy) to every point of the to displace set
(the zero translation on every actual call, since the degenerate hull
guard always fires); and the displacing branch itself, embedded as
displacePointsCore, either stops on an error or applies one uniform
translation, the combined displacement plus padding vector, to every
point.  No rotation or scaling is possible. -/
theorem claim5_uniform_translation :
    (∀ (sqrt : ℚ → ℚ) (ptsFixed ptsToDisplace : List Point) (padding : ℚ)
        (pt1 pt2 : Option Point),
      ∃ d : ℚ × ℚ,
        displacePoints sqrt ptsFixed ptsToDisplace padding pt1 pt2 =
          Except.ok (ptsFixed,
            ptsToDisplace.map fun p => ⟨p.x + d.1, p.y + d.2⟩)) ∧
    (∀ (sqrt : ℚ → ℚ) (chFixed chDisplace : List Edge)
        (ptsToDisplace : List Point) (padding : ℚ) (pt1 pt2 : Option Point),
      displacePointsCore sqrt chFixed chDisplace ptsToDisplace padding pt1 pt2 =
          Except.error () ∨
        ∃ d : ℚ × ℚ,
          displacePointsCore sqrt chFixed chDisplace ptsToDisplace padding pt1 pt2 =
            Except.ok (ptsToDisplace.map fun p => ⟨p.x + d.1, p.y + d.2⟩)) := by
  constructor
  · intro sqrt ptsFixed ptsToDisplace padding pt1 pt2
    refine ⟨(0, 0), ?_⟩
    rw [displacePoints_ok]
    rw [map_translate_zero]
  · intro sqrt chFixed chDisplace ptsToDisplace padding pt1 pt2
    unfold displacePointsCore
    dsimp only
    split
    · exact Or.inl rfl
    · exact Or.inl rfl
    · split
      · exact Or.inl rfl
      · exact Or.inr ⟨⟨_, _⟩, rfl⟩

/-- Claim C6 (status confirmed): whenever either computed hull has fewer
than 3 edges, displacePoints takes the early exit and returns normally
with both lists unchanged. -/
theorem claim6_degenerate_hull_is_noop
    (sqrt : ℚ → ℚ) (ptsFixed ptsToDisplace : List Point) (padding : ℚ)
    (pt1 pt2 : Option Point)
    (h : (getConvexHull ptsFixed).length < 3 ∨
      (getConvexHull ptsToDisplace).length < 3) :
    displacePoints sqrt ptsFixed ptsToDisplace padding pt1 pt2 =
      Except.ok (ptsFixed, ptsToDisplace) := by
  unfold displacePoints
  dsimp only
  rw [if_pos h]

/-- Witness for claim C6 at a concrete degenerate input. -/
theorem claim6_witness :
    displacePoints (fun q => q) [⟨1, 1⟩] [⟨5, 5⟩] 0 none none =
      Except.ok ([⟨1, 1⟩], [⟨5, 5⟩]) :=
  claim6_degenerate_hull_is_noop (fun q => q) [⟨1, 1⟩] [⟨5, 5⟩] 0 none none
    (Or.inl (by decide))

/-- Claim C7 (status confirmed): when no edge of the hull passes the
crossing test for the ray, minDistanceVectorInDirection runs off the end
of its loop and returns the null result; and every call of displacePoints
with a supplied pt2 returns normally, without an error and without any
displacement, since the degenerate hull guard fires before the null result
could be dereferenced. -/
theorem claim7_missed_ray_null_and_noop :
    (∀ (convexHull : List Edge) (pt v : Point),
      (∀ e ∈ convexHull, rayCrossesEdge pt v e = false) →
        minDistanceVectorInDirection convexHull pt v = Except.ok none) ∧
    (∀ (sqrt : ℚ → ℚ) (ptsFixed ptsToDisplace : List Point) (padding : ℚ)
        (pt1 : Option Point) (pt2 : Point),
      displacePoints sqrt ptsFixed ptsToDisplace padding pt1 (some pt2) =
        Except.ok (ptsFixed, ptsToDisplace)) :=
  ⟨fun convexHull pt v h => mdvidLoop_ok_none convexHull pt v convexHull h,
    fun sqrt ptsFixed ptsToDisplace padding pt1 pt2 =>
      displacePoints_ok sqrt ptsFixed ptsToDisplace padding pt1 (some pt2)⟩

/-- Witness for claim C7: a concrete ray pointing away from a concrete
triangle hull crosses none of its edges, the helper returns the null
result, and a concrete call with pt2 supplied returns both sets
unchanged. -/
theorem claim7_witness :
    minDistanceVectorInDirection triHull ⟨10, 10⟩ ⟨11, 10⟩ = Except.ok none ∧
      displacePoints (fun q => q) fixedSquare overlapSquare 0 none
          (some ⟨3, 3⟩) =
        Except.ok (fixedSquare, overlapSquare) :=
  ⟨claim7_missed_ray_null_and_noop.1 triHull ⟨10, 10⟩ ⟨11, 10⟩
      (by
        intro e he
        fin_cases he <;>
          norm_num [rayCrossesEdge, checkLineIntersection, sameDirection, sameSign]),
    claim7_missed_ray_null_and_noop.2 (fun q => q) fixedSquare overlapSquare 0
      none ⟨3, 3⟩⟩

/-- Claim C8 (status confirmed): a zero denominator makes
checkLineIntersection return the record with null coordinates and both
segment flags false, before any division happens; and
distToSegmentSquared on a zero length segment returns the squared distance
to the first endpoint. -/
theorem claim8_degenerate_geometry_guarded :
    (∀ line1Start line1End line2Start line2End : Point,
      ((line2End.y - line2Start.y) * (line1End.x - line1Start.x)) -
          ((line2End.x - line2Start.x) * (line1End.y - line1Start.y)) = 0 →
        checkLineIntersection line1Start line1End line2Start line2End =
          ⟨none, none, false, false⟩) ∧
    (∀ pt v1 v2 : Point, dist2 v1 v2 = 0 →
      distToSegmentSquared pt v1 v2 = dist2 pt v1) := by
  constructor
  · intro l1s l1e l2s l2e h
    unfold checkLineIntersection
    dsimp only
    rw [if_pos h]
  · intro pt v1 v2 h
    unfold distToSegmentSquared
    dsimp only
    rw [if_pos h]

/-- Witness for claim C8: two concrete parallel segments give a zero
denominator and the null record, and a concrete zero length segment gives
the distance to its endpoint. -/
theorem claim8_witness :
    checkLineIntersection ⟨0, 0⟩ ⟨1, 0⟩ ⟨0, 1⟩ ⟨1, 1⟩ =
        ⟨none, none, false, false⟩ ∧
      distToSegmentSquared ⟨0, 0⟩ ⟨2, 3⟩ ⟨2, 3⟩ = dist2 ⟨0, 0⟩ ⟨2, 3⟩ :=
  ⟨claim8_degenerate_geometry_guarded.1 ⟨0, 0⟩ ⟨1, 0⟩ ⟨0, 1⟩ ⟨1, 1⟩ (by norm_num),
    claim8_degenerate_geometry_guarded.2 ⟨0, 0⟩ ⟨2, 3⟩ ⟨2, 3⟩ (by norm_num [dist2, sqr])⟩

/-- Claim C9 (status code_bug): on the input [(0, 0), (-1, 5), (-2, 3)]
the point of maximum x is (0, 0), yet the scan selects (-1, 5) as maxPt,
because the test of the source reads pt.x > maxX or !maxX and !maxX is
true when the running maximum is the number 0, so the point after (0, 0)
overwrites the maximum unconditionally. -/
theorem claim9_baseline_scan_falsy_zero :
    (baselineScan zeroXInput).maxPt = some ⟨-1, 5⟩ ∧
      (baselineScan zeroXInput).maxX = some (-1) := by
  constructor <;> rfl

/-- Claim C10 (status code_bug): at the concrete scenario of the
specification the call returns both squares unchanged, so the minimum x of
the translated points is still 1, not 2, and the overlap region persists. -/
theorem claim10_concrete_squares_not_separated :
    displacePoints (fun q => q) fixedSquare overlapSquare 0 none none =
        Except.ok (fixedSquare, overlapSquare) ∧
      overlapSquare.map Point.x = [1, 1, 2, 2] :=
  ⟨displacePoints_ok _ _ _ _ _ _, rfl⟩

end SeparatePointSets
